import Mathlib

/-!
Verification of the parameter-resolution core of an autoscale
continuous-deployment tool (source: src/index.js).

The JavaScript source is shallowly embedded: pure functions become Lean
functions; calls to Math.random are modelled by oracle streams of natural
numbers, where the JS expression Math.floor(Math.random() * n) is encoded
as (oracle k) % n — for n > 0 both range exactly over 0..n-1, so the set
of behaviours of the embedding over all oracles equals the set of
behaviours of the source over all sequences of Math.random outcomes.
Fallible code (thrown TypeErrors, rejected promises) is embedded in the
Except monad.  External collaborators (the AWS CLI, the filesystem) are
passed in as explicit arguments or Except-valued outcomes.
-/

/-- A JavaScript value as far as the parameter pipeline inspects one:
a string, null, undefined, or some other (numeric) scalar. -/
inductive JSValue where
  | str (s : String)
  | nullv
  | undef
  | num (n : Int)
deriving DecidableEq, Repr

/-- Errors thrown inside the pipeline: a TypeError (calling trim on a
non-string), the parameter-generation Error thrown by
genAvailabilityZones, or a rejection surfaced from an external tool. -/
inductive JsError where
  | typeError
  | genError (msg : String)
  | external (msg : String)
deriving DecidableEq, Repr

/-- One element of the parameter document: an object with fields
ParameterKey and ParameterValue (src/index.js, shape used throughout
parseParams). -/
structure Param where
  ParameterKey : String
  ParameterValue : JSValue
deriving DecidableEq, Repr

/-- JavaScript truthiness for the values of JSValue. -/
def jsTruthy : JSValue → Bool
  | .str s => s != ""
  | .num n => n != 0
  | .nullv => false
  | .undef => false

/-- Whether a JSValue is a present string (the only values on which the
trim dispatch of parseParams does not throw). -/
def isStringValue : JSValue → Bool
  | .str _ => true
  | _ => false

/-- The character ranges of genString (src/index.js lines 49-53):
digits, uppercase letters, lowercase letters, as inclusive char-code
pairs, exactly the array named ranges in the source. -/
def ranges : List (Nat × Nat) := [(48, 57), (65, 90), (97, 122)]

/-- One iteration of the loop body of genString (src/index.js lines
56-66): given the already-drawn bucket index s and the second random
draw t, produce the char code pushed onto charCodes.  In the source,
ranges[s] being undefined selects the specialChars branch; the inner
Math.floor(Math.random() * (range[1] - range[0])) is encoded as
t % (range[1] - range[0]), and the specialChars index as
t % specialChars.length.  The [] case of the special branch is
unreachable from genCharCodes (s ≥ 3 is drawn only when specialChars
is non-empty, mirroring size in the source). -/
def genCharCode (specialChars : List Char) (s t : Nat) : Nat :=
  match ranges.get? s with
  | some r => t % (r.2 - r.1) + r.1
  | none =>
    match specialChars with
    | [] => 0
    | c :: cs => ((c :: cs).get ⟨t % (c :: cs).length, Nat.mod_lt t (Nat.succ_pos cs.length)⟩).toNat

/-- The charCodes array built by genString (src/index.js lines 54-66):
size is ranges.length plus one more bucket when specialChars is
non-empty; iteration i draws bucket (choose i) % size and offset
pick i. -/
def genCharCodes (length : Nat) (specialChars : List Char) (choose pick : Nat → Nat) : List Nat :=
  (List.range length).map fun i =>
    genCharCode specialChars
      (choose i % (ranges.length + (if specialChars.length > 0 then 1 else 0))) (pick i)

/-- genString (src/index.js lines 48-68): String.fromCharCode over the
generated char codes. -/
def genString (length : Nat) (specialChars : List Char) (choose pick : Nat → Nat) : String :=
  String.mk ((genCharCodes length specialChars choose pick).map Char.ofNat)

/-- genPassword (src/index.js lines 70-74): genString with the fixed
ten-symbol set when containSymbol is true, with no symbols otherwise. -/
def genPassword (length : Nat) (containSymbol : Bool) (choose pick : Nat → Nat) : String :=
  genString length
    (if containSymbol then ['!', '@', '#', '$', '%', '^', '&', '*', '+', '-'] else [])
    choose pick

/-- JavaScript String.prototype.startsWith, on the character data. -/
def jsStartsWith (v pre : String) : Bool :=
  pre.data.isPrefixOf v.data

/-- JavaScript String.prototype.trim on the character data (whitespace
stripped from both ends; the inputs of interest contain only ASCII
whitespace, where Char.isWhitespace and the JS definition agree). -/
def trimChars (cs : List Char) : List Char :=
  ((cs.dropWhile Char.isWhitespace).reverse.dropWhile Char.isWhitespace).reverse

/-- JavaScript trim as a String to String function. -/
def jsTrimString (s : String) : String :=
  String.mk (trimChars s.data)

/-- The expression param.ParameterValue.trim() as the source evaluates
it: a TypeError unless the value is a string. -/
def jsTrimVal : JSValue → Except JsError String
  | .str s => .ok (jsTrimString s)
  | _ => .error .typeError

/-- paramUseTemplateDefault (src/index.js lines 109-111): the value is
truthy and its trim equals the cd_default directive.  Short-circuit
evaluation: a falsy value never reaches trim, a truthy non-string
throws. -/
def paramUseTemplateDefault (v : JSValue) : Except JsError Bool :=
  if jsTruthy v then (jsTrimVal v).map (fun t => t == "$[cd_default]") else .ok false

/-- paramIsOverridden (src/index.js lines 113-115). -/
def paramIsOverridden (v : JSValue) : Except JsError Bool :=
  if jsTruthy v then (jsTrimVal v).map (fun t => t == "$[cd_overridden]") else .ok false

/-- Property lookup on a JS object or Map modelled as an association
list with unique keys: the value at the first matching key. -/
def objGet (xs : List (String × α)) (k : String) : Option α :=
  (xs.find? (fun p => p.1 == k)).map (fun p => p.2)

/-- getTemplateDefault (src/index.js lines 117-123): the schema maps a
parameter name to a descriptor whose optional Default is modelled
already string-coerced (the source applies String(...) on read); a
missing descriptor or a missing Default yields the empty string. -/
def getTemplateDefault (cfnTemplateParams : List (String × Option String)) (paramKey : String) :
    String :=
  match objGet cfnTemplateParams paramKey with
  | some (some d) => d
  | some none => ""
  | none => ""

/-- genOverriddenParam (src/index.js lines 183-186): the looked-up
value when defined and truthy, else the empty string (the source
expression (value !== undefined && String(value)) || two quotes). -/
def genOverriddenParam (key : String) (paramVariableMap : List (String × String)) : String :=
  match objGet paramVariableMap key with
  | some v => if v != "" then v else ""
  | none => ""

/-- True when a right bracket occurs before any whitespace: exactly the
condition under which the regex fragment consisting of an unbounded
non-whitespace run followed by a literal right bracket can match a
suffix of the subject. -/
def bracketBeforeSpace : List Char → Bool
  | [] => false
  | c :: cs => if c = ']' then true else if c.isWhitespace then false else bracketBeforeSpace cs

/-- The digit-group-and-rest fragment of the directive regexes
(src/index.js lines 213, 218, 221): a greedy digit run captured as the
group, then a greedy non-whitespace run, then a literal right bracket.
Backtracking the digit run shorter never flips failure to success
(digits are non-whitespace and are not the bracket), so the captured
group of a successful match is always the maximal digit run. -/
def matchDigitsPart (cs : List Char) : Option (List Char) :=
  if bracketBeforeSpace (cs.dropWhile Char.isDigit) then some (cs.takeWhile Char.isDigit)
  else none

/-- The optional single non-whitespace character before the digit group
in the directive regexes: greedy, so one character is consumed when
possible and the zero-width alternative is the backtrack.  Note that
when the character after the prefix is itself a digit, the greedy
optional consumes it — it is then missing from the captured group. -/
def matchTail (cs : List Char) : Option (List Char) :=
  match cs with
  | c :: rest =>
    if !c.isWhitespace then
      match matchDigitsPart rest with
      | some g => some g
      | none => matchDigitsPart (c :: rest)
    else matchDigitsPart (c :: rest)
  | [] => matchDigitsPart []

/-- exec of the anchored directive regexes of src/index.js lines 213
and 218: the literal prefix, then the optional non-whitespace
character, the captured digit run, a non-whitespace run and the
closing bracket.  none models exec returning null. -/
def execDirective (pre : String) (v : String) : Option (List Char) :=
  if jsStartsWith v pre then matchTail (v.data.drop pre.data.length) else none

/-- exec of the cd_genpass regex (src/index.js line 221): as
execDirective but with an optional literal strong-marker group first;
the marker group is greedy, and if the tail fails after consuming it
the engine backtracks to the unconsumed alternative. -/
def execPass (v : String) : Option (Bool × List Char) :=
  if jsStartsWith v "$[cd_genpass" then
    let cs := v.data.drop "$[cd_genpass".data.length
    if "_strong".data.isPrefixOf cs then
      match matchTail (cs.drop "_strong".data.length) with
      | some g => some (true, g)
      | none => (matchTail cs).map (fun g => (false, g))
    else (matchTail cs).map (fun g => (false, g))
  else none

/-- JavaScript Number(...) on a captured digit run (possibly empty):
the empty run is Number of the empty string, which is 0. -/
def digitsToNat (ds : List Char) : Nat :=
  List.foldl (fun n c => n * 10 + (c.toNat - 48)) 0 ds

/-- The error message thrown by genAvailabilityZones (src/index.js
lines 148-152), template holes filled positionally. -/
def azErrorMsg (region : String) (num got : Nat) : String :=
  "parameter value generation error:" ++ " not enough availability zones in AWS region: " ++
    region ++ "." ++ " request: " ++ toString num ++ ", got: " ++ toString got

/-- JavaScript Array.prototype.join with a comma separator. -/
def joinComma : List String → String
  | [] => ""
  | [s] => s
  | s :: t :: rest => s ++ "," ++ joinComma (t :: rest)

/-- genAvailabilityZones (src/index.js lines 145-156): azones is the
fetched available-zone list, shuffled is the same list after the
random comparator sort (a permutation of azones, arbitrary because the
comparator is random), region is the configured AWS region read from
the environment.  Fails when fewer zones exist than requested,
otherwise joins the first num shuffled zones. -/
def genAvailabilityZones (num : Nat) (azones shuffled : List String) (region : String) :
    Except JsError String :=
  if azones.length < num then
    .error (.genError (azErrorMsg region num azones.length))
  else
    .ok (joinComma (shuffled.take num))

/-- The else block of the parseParams map callback (src/index.js lines
209-227): prefix dispatch on the trimmed value v for the cd_randchar,
cd_genaz and cd_genpass directives; anything else passes the entry p
through unchanged. -/
def resolveDirective (azones shuffled : List String) (region : String)
    (choose pick : Nat → Nat) (p : Param) (v : String) : Except JsError Param :=
  if jsStartsWith v "$[cd_randchar" then
    match execDirective "$[cd_randchar" v with
    | some g =>
      if g != [] then
        .ok ⟨p.ParameterKey, .str (genString (digitsToNat g) [] choose pick)⟩
      else .ok p
    | none => .ok p
  else if jsStartsWith v "$[cd_genaz" then
    match genAvailabilityZones
        (match execDirective "$[cd_genaz" v with | some g => digitsToNat g | none => 0)
        azones shuffled region with
    | .error e => .error e
    | .ok az => .ok ⟨p.ParameterKey, .str az⟩
  else if jsStartsWith v "$[cd_genpass" then
    .ok ⟨p.ParameterKey, .str
      (match execPass v with
       | some sg => genPassword (digitsToNat sg.2) sg.1 choose pick
       | none => genPassword 0 false choose pick)⟩
  else .ok p

/-- The body of the parseParams map callback for one entry
(src/index.js lines 201-229): dispatch on the exact cd_default and
cd_overridden directives, then by prefix on the trimmed value. -/
def resolveParam (cfnTemplateParams : List (String × Option String))
    (paramVariableMap : List (String × String)) (azones shuffled : List String)
    (region : String) (choose pick : Nat → Nat) (p : Param) : Except JsError Param :=
  match paramUseTemplateDefault p.ParameterValue with
  | .error e => .error e
  | .ok true => .ok ⟨p.ParameterKey, .str (getTemplateDefault cfnTemplateParams p.ParameterKey)⟩
  | .ok false =>
    match paramIsOverridden p.ParameterValue with
    | .error e => .error e
    | .ok true => .ok ⟨p.ParameterKey, .str (genOverriddenParam p.ParameterKey paramVariableMap)⟩
    | .ok false =>
      match jsTrimVal p.ParameterValue with
      | .error e => .error e
      | .ok v => resolveDirective azones shuffled region choose pick p v

/-- parseParams (src/index.js lines 199-231) over the entries from
index i on: Promise.all over the per-entry resolutions; the resolved
list preserves document order and the batch fails as soon as any entry
fails.  The oracle streams are indexed per entry. -/
def parseParamsAux (cfnTemplateParams : List (String × Option String))
    (paramVariableMap : List (String × String)) (azones : List String)
    (shuffled : Nat → List String) (region : String) (choose pick : Nat → Nat → Nat) :
    Nat → List Param → Except JsError (List Param)
  | _, [] => .ok []
  | i, p :: rest =>
    match resolveParam cfnTemplateParams paramVariableMap azones (shuffled i) region
        (choose i) (pick i) p with
    | .error e => .error e
    | .ok q =>
      match parseParamsAux cfnTemplateParams paramVariableMap azones shuffled region
          choose pick (i + 1) rest with
      | .error e => .error e
      | .ok qs => .ok (q :: qs)

/-- parseParams (src/index.js lines 199-231). -/
def parseParams (paramJSON : List Param) (cfnTemplateParams : List (String × Option String))
    (paramVariableMap : List (String × String)) (azones : List String)
    (shuffled : Nat → List String) (region : String) (choose pick : Nat → Nat → Nat) :
    Except JsError (List Param) :=
  parseParamsAux cfnTemplateParams paramVariableMap azones shuffled region choose pick 0 paramJSON

/-- JavaScript Map.prototype.set: replace the value in place when the
key exists, append otherwise. -/
def jsSet (m : List (String × α)) (k : String) (v : α) : List (String × α) :=
  match m with
  | [] => [(k, v)]
  | (k1, v1) :: rest => if k1 == k then (k1, v) :: rest else (k1, v1) :: jsSet rest k v

/-- JavaScript String.prototype.split with a single-space separator:
adjacent separators and edge separators yield empty fragments. -/
def splitOnSpaceAux (cur : List Char) : List Char → List (List Char)
  | [] => [cur.reverse]
  | c :: rest =>
    if c = ' ' then cur.reverse :: splitOnSpaceAux [] rest else splitOnSpaceAux (c :: cur) rest

/-- JavaScript split by a single space on a String. -/
def jsSplitSpace (s : String) : List String :=
  (splitOnSpaceAux [] s.data).map String.mk

/-- Case-insensitive literal fragment of the name-value-pair regex: on
success returns the subject rest after the literal. -/
def litMatchCI : List Char → List Char → Option (List Char)
  | [], cs => some cs
  | _ :: _, [] => none
  | l :: ls, c :: cs => if l.toLower == c.toLower then litMatchCI ls cs else none

/-- Backtracking split of the maximal non-whitespace run following the
Name= literal: the first captured group is greedy, so the engine tries
the longest group first and backs off until the case-insensitive
Value= literal follows it with a non-empty remainder of the run for
the second group.  The fuel argument is the candidate group length,
starting at the run length. -/
def findValueSplit (run : List Char) : Nat → Option (List Char × List Char)
  | 0 => none
  | j + 1 =>
    match litMatchCI ",Value=".data (run.drop (j + 1)) with
    | some g2 => if g2 != [] then some (run.take (j + 1), g2) else findValueSplit run j
    | none => findValueSplit run j

/-- The name-value-pair regex of genOverriddenParamMap (src/index.js
line 192) applied at one start position: the case-insensitive Name=
literal, then two greedy non-whitespace groups separated by the
case-insensitive Value= literal.  Both groups lie inside the maximal
non-whitespace run after the Name= literal, because every literal
character is itself non-whitespace. -/
def matchNVAt (cs : List Char) : Option (String × String) :=
  match litMatchCI "Name=".data cs with
  | none => none
  | some rest =>
    let run := rest.takeWhile (fun c => !c.isWhitespace)
    match findValueSplit run run.length with
    | some g => some (String.mk g.1, String.mk g.2)
    | none => none

/-- The unanchored search of exec: try each start position from the
left, first match wins, null when no position matches. -/
def nvpSearch : List Char → Option (String × String)
  | [] => matchNVAt []
  | c :: rest =>
    match matchNVAt (c :: rest) with
    | some r => some r
    | none => nvpSearch rest

/-- One token of the override specification put through exec and the
destructuring of src/index.js lines 192-193: the captured name and
value, or none when exec returns null. -/
def nvpExtract (token : String) : Option (String × String) :=
  nvpSearch token.data

/-- genOverriddenParamMap (src/index.js lines 188-197): split the
specification on spaces, extract the name-value pairs, drop the tokens
without a captured name, and build a Map from the resulting pair list
(later occurrences of a key overwrite earlier ones). -/
def genOverriddenParamMap (inputString : String) : List (String × String) :=
  List.foldl (fun m nv => jsSet m nv.1 nv.2) []
    ((jsSplitSpace inputString).filterMap nvpExtract)

/-- The paramVariableMap construction of create (src/index.js lines
243-247): the override specification when present and truthy, then the
four synthetic bucket and key-prefix entries set on top of it. -/
def createParamVariableMap (override : Option String) (bucket keyPfx : String) :
    List (String × String) :=
  let base :=
    match override with
    | some s => if s != "" then genOverriddenParamMap s else []
    | none => []
  jsSet (jsSet (jsSet (jsSet base "S3BucketName" bucket) "S3KeyPrefix" (keyPfx ++ "/"))
    "QSS3BucketName" bucket) "QSS3KeyPrefix" (keyPfx ++ "/")

/-- The outcomes of the external collaborators consumed by the create
subcommand (src/index.js lines 240-264): the template fetched from S3,
the optional local parameter file read (absent when the flag is not
given), the parameter-file write, the stack creation call, and the
fetched availability zones. -/
structure CreateEnv where
  loadTemplate : Except JsError (List (String × Option String))
  paramFile : Option (Except JsError (List Param))
  saveFile : Except JsError Unit
  createStack : Except JsError String
  azones : List String

/-- The try block of create (src/index.js lines 249-260): load the
template, read the parameter document (parseParams on a null document
throws a TypeError, since null has no map method), resolve the
parameters, save the file, create the stack. -/
def createBody (env : CreateEnv) (override : Option String) (bucket keyPfx : String)
    (shuffled : Nat → List String) (region : String) (choose pick : Nat → Nat → Nat) :
    Except JsError String :=
  let pmap := createParamVariableMap override bucket keyPfx
  match env.loadTemplate with
  | .error e => .error e
  | .ok tparams =>
    match env.paramFile with
    | none => .error .typeError
    | some (.error e) => .error e
    | some (.ok params) =>
      match parseParams params tparams pmap env.azones shuffled region choose pick with
      | .error e => .error e
      | .ok _resolved =>
        match env.saveFile with
        | .error e => .error e
        | .ok _ =>
          match env.createStack with
          | .error e => .error e
          | .ok out => .ok out

/-- create (src/index.js lines 240-264): the whole body runs inside a
try/catch whose handler only logs, so the returned promise always
resolves; the second component records the error passed to
console.error, when any. -/
def createCmd (env : CreateEnv) (override : Option String) (bucket keyPfx : String)
    (shuffled : Nat → List String) (region : String) (choose pick : Nat → Nat → Nat) :
    Except JsError Unit × Option JsError :=
  match createBody env override bucket keyPfx shuffled region choose pick with
  | .ok _ => (.ok (), none)
  | .error e => (.ok (), some e)

/-- deploy (src/index.js lines 266-273): unpack the archive, upload the
directory; there is no try/catch, so a failing stage rejects the
promise returned to the command runner. -/
def deployCmd (unpack : Except JsError String) (upload : String → Except JsError String) :
    Except JsError Bool :=
  match unpack with
  | .error e => .error e
  | .ok dir =>
    match upload dir with
    | .error e => .error e
    | .ok _dest => .ok true

/-- main (src/index.js lines 275-278): await the subcommand, then print
the completion message.  A rejected subcommand promise makes the await
throw out of main, which has no handler, so the completion message is
not printed. -/
def mainRun (cmdResult : Except JsError α) : Option String :=
  match cmdResult with
  | .ok _ => some "program ends."
  | .error _ => none

theorem takeWhile_nil_of_none {p : α → Bool} :
    ∀ {l : List α}, (∀ c ∈ l, p c = false) → l.takeWhile p = []
  | [], _ => rfl
  | c :: t, h => by simp [List.takeWhile, h c (List.mem_cons_self c t)]

theorem genCharCode_alphabet (sc : List Char) (s t : Nat)
    (hs : s < ranges.length + (if sc.length > 0 then 1 else 0)) :
    (48 ≤ genCharCode sc s t ∧ genCharCode sc s t ≤ 56) ∨
    (65 ≤ genCharCode sc s t ∧ genCharCode sc s t ≤ 89) ∨
    (97 ≤ genCharCode sc s t ∧ genCharCode sc s t ≤ 121) ∨
    genCharCode sc s t ∈ sc.map Char.toNat := by
  have h9 : t % 9 < 9 := Nat.mod_lt t (by omega)
  have h25 : t % 25 < 25 := Nat.mod_lt t (by omega)
  cases sc with
  | nil =>
    simp [ranges] at hs
    interval_cases s <;> simp [genCharCode, ranges] <;> omega
  | cons c cs =>
    simp [ranges] at hs
    interval_cases s
    · simp [genCharCode, ranges]; omega
    · simp [genCharCode, ranges]; omega
    · simp [genCharCode, ranges]; omega
    · right; right; right
      simp only [genCharCode, ranges, List.get?]
      exact List.mem_map.mpr ⟨_, List.get_mem _ _ _, rfl⟩

/-- Claim C7: for every length L, genString returns a string of exactly
L characters whose char codes all lie in the declared alphabets
(digits, uppercase, lowercase, plus the supplied symbol set); L = 0
yields the empty string and no length makes the (total) generator
fail. -/
theorem c7_genString_length_and_alphabet (L : Nat) (sc : List Char) (choose pick : Nat → Nat) :
    (genString L sc choose pick).length = L ∧
    ∀ code ∈ genCharCodes L sc choose pick,
      (48 ≤ code ∧ code ≤ 57) ∨ (65 ≤ code ∧ code ≤ 90) ∨ (97 ≤ code ∧ code ≤ 122) ∨
        code ∈ sc.map Char.toNat := by
  constructor
  · simp [genString, genCharCodes]
  · intro code hc
    simp only [genCharCodes, List.mem_map, List.mem_range] at hc
    obtain ⟨i, _, hcode⟩ := hc
    have hpos : 0 < ranges.length + (if sc.length > 0 then 1 else 0) := by
      by_cases h : sc.length > 0 <;> simp [h, ranges]
    have := genCharCode_alphabet sc
      (choose i % (ranges.length + (if sc.length > 0 then 1 else 0))) (pick i)
      (Nat.mod_lt _ hpos)
    rw [hcode] at this
    rcases this with h | h | h | h
    · exact Or.inl (by omega)
    · exact Or.inr (Or.inl (by omega))
    · exact Or.inr (Or.inr (Or.inl (by omega)))
    · exact Or.inr (Or.inr (Or.inr h))

theorem c7_witness :
    (genString 3 [] (fun _ => 0) (fun _ => 0)).length = 3 ∧
    (48 ∈ genCharCodes 3 [] (fun _ => 0) (fun _ => 0) ∧
      ((48 ≤ 48 ∧ 48 ≤ 57) ∨ (65 ≤ 48 ∧ 48 ≤ 90) ∨ (97 ≤ 48 ∧ 48 ≤ 122) ∨
        48 ∈ ([] : List Char).map Char.toNat)) :=
  ⟨(c7_genString_length_and_alphabet 3 [] (fun _ => 0) (fun _ => 0)).1,
    by decide,
    (c7_genString_length_and_alphabet 3 [] (fun _ => 0) (fun _ => 0)).2 48 (by decide)⟩

/-- Claim C8 counterexample: the char code 57, the character 9, is not
a possible output of the generator at any position under any random
outcomes — the source draws the within-range offset with an exclusive
upper bound, so the last character of each declared range is
unreachable. -/
theorem c8_counterexample :
    ¬ ∃ choose pick : Nat → Nat, 57 ∈ genCharCodes 1 [] choose pick := by
  rintro ⟨f, g, h⟩
  simp only [genCharCodes, List.range_succ, List.range_zero, List.nil_append,
    List.map_cons, List.map_nil, List.mem_singleton, List.length_nil, gt_iff_lt,
    lt_self_iff_false, if_false, Nat.add_zero] at h
  have halpha := genCharCode_alphabet [] (f 0 % ranges.length) (g 0)
    (by simp only [List.length_nil, gt_iff_lt, lt_self_iff_false, if_false, Nat.add_zero]
        exact Nat.mod_lt _ (by simp [ranges]))
  rw [← h] at halpha
  rcases halpha with h1 | h1 | h1 | h1
  · omega
  · omega
  · omega
  · simp at h1

/-- Claim C8 amended: every generated char code lies in the reduced
alphabet of digits 0 to 8, uppercase A to Y and lowercase a to y, and
conversely every code of that reduced alphabet is a possible output
for a position. -/
theorem c8_amended_reduced_alphabet :
    (∀ (choose pick : Nat → Nat) (L : Nat), ∀ code ∈ genCharCodes L [] choose pick,
      (48 ≤ code ∧ code ≤ 56) ∨ (65 ≤ code ∧ code ≤ 89) ∨ (97 ≤ code ∧ code ≤ 121)) ∧
    (∀ code,
      ((48 ≤ code ∧ code ≤ 56) ∨ (65 ≤ code ∧ code ≤ 89) ∨ (97 ≤ code ∧ code ≤ 121)) →
      ∃ choose pick : Nat → Nat, genCharCodes 1 [] choose pick = [code]) := by
  constructor
  · intro f g L code hc
    simp only [genCharCodes, List.mem_map, List.mem_range] at hc
    obtain ⟨i, _, hcode⟩ := hc
    have hpos : 0 < ranges.length + (if ([] : List Char).length > 0 then 1 else 0) := by
      simp [ranges]
    have := genCharCode_alphabet []
      (f i % (ranges.length + (if ([] : List Char).length > 0 then 1 else 0))) (g i)
      (Nat.mod_lt _ hpos)
    rw [hcode] at this
    simpa using this
  · intro code h
    rcases h with ⟨h1, h2⟩ | ⟨h1, h2⟩ | ⟨h1, h2⟩
    · refine ⟨fun _ => 0, fun _ => code - 48, ?_⟩
      simp only [genCharCodes, List.range_succ, List.range_zero, List.nil_append,
        List.map_cons, List.map_nil, genCharCode, ranges]
      norm_num
      rw [Nat.mod_eq_of_lt (by omega)]
      omega
    · refine ⟨fun _ => 1, fun _ => code - 65, ?_⟩
      simp only [genCharCodes, List.range_succ, List.range_zero, List.nil_append,
        List.map_cons, List.map_nil, genCharCode, ranges]
      norm_num
      rw [Nat.mod_eq_of_lt (by omega)]
      omega
    · refine ⟨fun _ => 2, fun _ => code - 97, ?_⟩
      simp only [genCharCodes, List.range_succ, List.range_zero, List.nil_append,
        List.map_cons, List.map_nil, genCharCode, ranges]
      norm_num
      rw [Nat.mod_eq_of_lt (by omega)]
      omega

theorem c8_witness :
    ((97 ≤ 100 ∧ 100 ≤ 121) ∧
      ∃ choose pick : Nat → Nat, genCharCodes 1 [] choose pick = [100]) ∧
    ((48 ∈ genCharCodes 1 [] (fun _ => 0) (fun _ => 0)) ∧
      ((48 ≤ 48 ∧ 48 ≤ 56) ∨ (65 ≤ 48 ∧ 48 ≤ 89) ∨ (97 ≤ 48 ∧ 48 ≤ 121))) :=
  ⟨⟨by omega, c8_amended_reduced_alphabet.2 100 (by omega)⟩,
    by decide,
    c8_amended_reduced_alphabet.1 (fun _ => 0) (fun _ => 0) 1 48 (by decide)⟩

/-- Claim C6: whenever the requested zone count exceeds the number of
available zones, genAvailabilityZones fails with the insufficient-
capacity generation error, and its message names the requested count,
the actual count, and the active region. -/
theorem c6_genAvailabilityZones_insufficient (num : Nat) (azones shuffled : List String)
    (region : String) (h : azones.length < num) :
    genAvailabilityZones num azones shuffled region =
      .error (.genError (azErrorMsg region num azones.length)) ∧
    (∃ p q, azErrorMsg region num azones.length = p ++ region ++ q) ∧
    (∃ p q, azErrorMsg region num azones.length = p ++ toString num ++ q) ∧
    (∃ p q, azErrorMsg region num azones.length = p ++ toString azones.length ++ q) := by
  refine ⟨by simp [genAvailabilityZones, h], ?_, ?_, ?_⟩
  · exact ⟨"parameter value generation error:" ++
      " not enough availability zones in AWS region: ",
      "." ++ " request: " ++ toString num ++ ", got: " ++ toString azones.length,
      by simp only [azErrorMsg, String.append_assoc]⟩
  · exact ⟨"parameter value generation error:" ++
      " not enough availability zones in AWS region: " ++ region ++ "." ++ " request: ",
      ", got: " ++ toString azones.length,
      by simp only [azErrorMsg, String.append_assoc]⟩
  · exact ⟨"parameter value generation error:" ++
      " not enough availability zones in AWS region: " ++ region ++ "." ++ " request: " ++
        toString num ++ ", got: ", "",
      by simp only [azErrorMsg, String.append_assoc, String.append_empty]⟩

theorem c6_witness :
    (["a", "b"] : List String).length < 5 ∧
    genAvailabilityZones 5 ["a", "b"] ["a", "b"] "us-east-1" =
      .error (.genError (azErrorMsg "us-east-1" 5 2)) :=
  ⟨by decide,
    (c6_genAvailabilityZones_insufficient 5 ["a", "b"] ["a", "b"] "us-east-1" (by decide)).1⟩

/-- Claim C2, evaluated at the failing input: resolving the document
with the single entry DBPassword mapped to the cd_genpass_strong8
directive yields the empty string, not an 8-character password — the
greedy optional non-whitespace character of the regex consumes the
digit 8, the captured length group is empty, and Number of the empty
string is 0.  The result is independent of the random oracles because
the generated string has length 0. -/
theorem c2_genpass_strong8_empty :
    parseParams [⟨"DBPassword", .str "$[cd_genpass_strong8]"⟩] [("DBPassword", some "x")]
      [] ["a", "b", "c"] (fun _ => ["a", "b", "c"]) "us-east-1" (fun _ _ => 0) (fun _ _ => 0) =
      .ok [⟨"DBPassword", .str ""⟩] ∧
    ("" : String).length ≠ 8 := by
  exact ⟨rfl, by decide⟩

/-- Claim C3, evaluated at the failing input: resolving the document
with the single entry Zones mapped to the cd_genaz2 directive over the
available zones a, b, c yields the empty string, not two distinct
comma-joined zone names — the greedy optional non-whitespace character
of the regex consumes the digit 2, so the requested count is 0 and the
join of zero zones is empty. -/
theorem c3_genaz2_empty :
    parseParams [⟨"Zones", .str "$[cd_genaz2]"⟩] [("Zones", none)] [] ["a", "b", "c"]
      (fun _ => ["a", "b", "c"]) "us-east-1" (fun _ _ => 0) (fun _ _ => 0) =
      .ok [⟨"Zones", .str ""⟩] := rfl

theorem matchDigitsPart_group_nil {cs : List Char} (h : ∀ c ∈ cs, c.isDigit = false) :
    ∀ g, matchDigitsPart cs = some g → g = [] := by
  intro g hg
  simp only [matchDigitsPart] at hg
  split at hg
  · cases hg
    exact takeWhile_nil_of_none h
  · cases hg

theorem matchTail_group_nil {cs : List Char} (h : ∀ c ∈ cs, c.isDigit = false) :
    ∀ g, matchTail cs = some g → g = [] := by
  intro g hg
  match cs, hg with
  | [], hg => exact matchDigitsPart_group_nil (by intro c hc; cases hc) g hg
  | c :: rest, hg =>
    simp only [matchTail] at hg
    split at hg
    · cases he : matchDigitsPart rest with
      | some g2 =>
        rw [he] at hg
        cases hg
        exact matchDigitsPart_group_nil
          (fun x hx => h x (List.mem_cons_of_mem c hx)) g he
      | none =>
        rw [he] at hg
        exact matchDigitsPart_group_nil h g hg
    · exact matchDigitsPart_group_nil h g hg

/-- Claim C1 counterexample: the entry value cd_genpass in brackets has
a trimmed value that starts with the recognized cd_genpass directive
prefix and contains no digit, yet resolution does not leave it
unchanged: it substitutes the zero-length generated password, the
empty string. -/
theorem c1_counterexample :
    jsStartsWith (jsTrimString "$[cd_genpass]") "$[cd_genpass" = true ∧
    (∀ c ∈ (jsTrimString "$[cd_genpass]").data, c.isDigit = false) ∧
    resolveParam [] [] ["a"] ["a"] "r" (fun _ => 0) (fun _ => 0) ⟨"K", .str "$[cd_genpass]"⟩ =
      .ok ⟨"K", .str ""⟩ ∧
    JSValue.str "" ≠ JSValue.str "$[cd_genpass]" :=
  ⟨by decide, by decide, rfl, by decide⟩

/-- Claim C1 amended: the digitless-directive-is-literal behaviour
holds exactly for the cd_randchar directive: for every entry whose
trimmed string value starts with the cd_randchar prefix and contains
no digit, resolution returns the entry unchanged.  (For the cd_genaz
and cd_genpass prefixes the source substitutes unconditionally with
count or length 0, as the counterexample shows.) -/
theorem c1_amended_randchar_literal (tp : List (String × Option String))
    (pmap : List (String × String)) (azones shuffled : List String) (region : String)
    (choose pick : Nat → Nat) (key s : String)
    (h1 : jsStartsWith (jsTrimString s) "$[cd_randchar" = true)
    (h2 : ∀ c ∈ (jsTrimString s).data, c.isDigit = false) :
    resolveParam tp pmap azones shuffled region choose pick ⟨key, .str s⟩ =
      .ok ⟨key, .str s⟩ := by
  have hs : s ≠ "" := by
    rintro rfl
    exact absurd h1 (by decide)
  have hd : (jsTrimString s == "$[cd_default]") = false := by
    rw [beq_eq_false_iff_ne]
    intro he
    rw [he] at h1
    exact absurd h1 (by decide)
  have ho : (jsTrimString s == "$[cd_overridden]") = false := by
    rw [beq_eq_false_iff_ne]
    intro he
    rw [he] at h1
    exact absurd h1 (by decide)
  have h_default : paramUseTemplateDefault (.str s) = .ok false := by
    simp [paramUseTemplateDefault, jsTruthy, jsTrimVal, hs, hd, Except.map]
  have h_over : paramIsOverridden (.str s) = .ok false := by
    simp [paramIsOverridden, jsTruthy, jsTrimVal, hs, ho, Except.map]
  have hnd : ∀ c ∈ (jsTrimString s).data.drop 13, c.isDigit = false :=
    fun c hc => h2 c (List.drop_subset _ _ hc)
  simp only [resolveParam, h_default, h_over, jsTrimVal, resolveDirective, h1, if_true]
  cases hm : matchTail ((jsTrimString s).data.drop 13) with
  | none => simp [execDirective, h1, hm]
  | some g =>
    have hg : g = [] := matchTail_group_nil hnd g hm
    subst hg
    simp [execDirective, h1, hm]

theorem c1_witness :
    jsStartsWith (jsTrimString "$[cd_randchar]") "$[cd_randchar" = true ∧
    (∀ c ∈ (jsTrimString "$[cd_randchar]").data, c.isDigit = false) ∧
    resolveParam [] [] [] [] "r" (fun _ => 0) (fun _ => 0) ⟨"K", .str "$[cd_randchar]"⟩ =
      .ok ⟨"K", .str "$[cd_randchar]"⟩ :=
  ⟨by decide, by decide,
    c1_amended_randchar_literal [] [] [] [] "r" (fun _ => 0) (fun _ => 0) "K" "$[cd_randchar]"
      (by decide) (by decide)⟩


theorem resolveDirective_ok_str (azones shuffled : List String) (region : String)
    (choose pick : Nat → Nat) (p q : Param) (v : String)
    (hp : ∃ s, p.ParameterValue = .str s)
    (h : resolveDirective azones shuffled region choose pick p v = .ok q) :
    ∃ s, q.ParameterValue = .str s := by
  simp only [resolveDirective] at h
  split at h
  · split at h
    · split at h
      · cases h
        exact ⟨_, rfl⟩
      · cases h
        exact hp
    · cases h
      exact hp
  · split at h
    · split at h
      · cases h
      · cases h
        exact ⟨_, rfl⟩
    · split at h
      · cases h
        exact ⟨_, rfl⟩
      · cases h
        exact hp

theorem resolveParam_ok_str (tp : List (String × Option String))
    (pmap : List (String × String)) (azones shuffled : List String) (region : String)
    (choose pick : Nat → Nat) (p q : Param)
    (h : resolveParam tp pmap azones shuffled region choose pick p = .ok q) :
    ∃ s, q.ParameterValue = .str s := by
  simp only [resolveParam] at h
  split at h
  · cases h
  · cases h
    exact ⟨_, rfl⟩
  · split at h
    · cases h
    · cases h
      exact ⟨_, rfl⟩
    · split at h
      · cases h
      · next v heq =>
        have hp : ∃ s, p.ParameterValue = .str s := by
          cases hv : p.ParameterValue
          · exact ⟨_, rfl⟩
          all_goals simp [hv, jsTrimVal] at heq
        exact resolveDirective_ok_str azones shuffled region choose pick p q v hp h

theorem parseParamsAux_ok_str (tp : List (String × Option String))
    (pmap : List (String × String)) (azones : List String) (shuffled : Nat → List String)
    (region : String) (choose pick : Nat → Nat → Nat) :
    ∀ (i : Nat) (params out : List Param),
      parseParamsAux tp pmap azones shuffled region choose pick i params = .ok out →
      ∀ p ∈ out, ∃ s, p.ParameterValue = .str s
  | _, [], _, h => by
    cases h
    intro p hp
    cases hp
  | i, p0 :: rest, out, h => by
    simp only [parseParamsAux] at h
    split at h
    · cases h
    · next q hq =>
      split at h
      · cases h
      · next qs hqs =>
        cases h
        intro p hp
        rcases List.mem_cons.mp hp with rfl | hmem
        · exact resolveParam_ok_str _ _ _ _ _ _ _ _ _ hq
        · exact parseParamsAux_ok_str tp pmap azones shuffled region choose pick
            (i + 1) rest qs hqs p hmem

/-- Claim C5: the cd_default directive on a key absent from the schema
or present but lacking a Default resolves to the empty string, the
cd_overridden directive on a key absent from the override table
resolves to the empty string — neither is an error — and after a
successful resolution every entry of the output carries a string value
(never null or undefined). -/
theorem c5_resolution_yields_strings :
    (∀ (tp : List (String × Option String)) (pmap : List (String × String))
        (azones shuffled : List String) (region : String) (choose pick : Nat → Nat)
        (key : String), objGet tp key = none ∨ objGet tp key = some none →
        resolveParam tp pmap azones shuffled region choose pick ⟨key, .str "$[cd_default]"⟩ =
          .ok ⟨key, .str ""⟩) ∧
    (∀ (tp : List (String × Option String)) (pmap : List (String × String))
        (azones shuffled : List String) (region : String) (choose pick : Nat → Nat)
        (key : String), objGet pmap key = none →
        resolveParam tp pmap azones shuffled region choose pick ⟨key, .str "$[cd_overridden]"⟩ =
          .ok ⟨key, .str ""⟩) ∧
    (∀ (params : List Param) (tp : List (String × Option String))
        (pmap : List (String × String)) (azones : List String) (shuffled : Nat → List String)
        (region : String) (choose pick : Nat → Nat → Nat) (out : List Param),
        parseParams params tp pmap azones shuffled region choose pick = .ok out →
        ∀ p ∈ out, ∃ s, p.ParameterValue = .str s) := by
  refine ⟨?_, ?_, ?_⟩
  · intro tp pmap azones shuffled region choose pick key hnone
    have h1 : paramUseTemplateDefault (.str "$[cd_default]") = .ok true := rfl
    rcases hnone with hnone | hnone <;>
      simp only [resolveParam, h1, getTemplateDefault, hnone]
  · intro tp pmap azones shuffled region choose pick key hnone
    have h1 : paramUseTemplateDefault (.str "$[cd_overridden]") = .ok false := rfl
    have h2 : paramIsOverridden (.str "$[cd_overridden]") = .ok true := rfl
    simp only [resolveParam, h1, h2, genOverriddenParam, hnone]
  · intro params tp pmap azones shuffled region choose pick out h
    exact parseParamsAux_ok_str tp pmap azones shuffled region choose pick 0 params out h

theorem c5_witness :
    (objGet ([] : List (String × Option String)) "K" = none ∧
      resolveParam [] [] [] [] "r" (fun _ => 0) (fun _ => 0) ⟨"K", .str "$[cd_default]"⟩ =
        .ok ⟨"K", .str ""⟩) ∧
    (objGet [("K", (none : Option String))] "K" = some none ∧
      resolveParam [("K", none)] [] [] [] "r" (fun _ => 0) (fun _ => 0)
        ⟨"K", .str "$[cd_default]"⟩ = .ok ⟨"K", .str ""⟩) ∧
    (objGet ([] : List (String × String)) "K" = none ∧
      resolveParam [] [] [] [] "r" (fun _ => 0) (fun _ => 0) ⟨"K", .str "$[cd_overridden]"⟩ =
        .ok ⟨"K", .str ""⟩) ∧
    (parseParams [⟨"K", .str "lit"⟩] [] [] [] (fun _ => []) "r" (fun _ _ => 0) (fun _ _ => 0) =
        .ok [⟨"K", .str "lit"⟩] ∧
      ∃ s, (Param.mk "K" (.str "lit")).ParameterValue = .str s) :=
  ⟨⟨rfl, c5_resolution_yields_strings.1 [] [] [] [] "r" (fun _ => 0) (fun _ => 0) "K"
      (Or.inl rfl)⟩,
    ⟨rfl, c5_resolution_yields_strings.1 [("K", none)] [] [] [] "r" (fun _ => 0) (fun _ => 0)
      "K" (Or.inr rfl)⟩,
    ⟨rfl, c5_resolution_yields_strings.2.1 [] [] [] [] "r" (fun _ => 0) (fun _ => 0) "K" rfl⟩,
    rfl,
    c5_resolution_yields_strings.2.2 [⟨"K", .str "lit"⟩] [] [] [] (fun _ => []) "r"
      (fun _ _ => 0) (fun _ _ => 0) [⟨"K", .str "lit"⟩] rfl ⟨"K", .str "lit"⟩
      (List.mem_singleton.mpr rfl)⟩

theorem resolveParam_nonstr_error (tp : List (String × Option String))
    (pmap : List (String × String)) (azones shuffled : List String) (region : String)
    (choose pick : Nat → Nat) (p : Param) (hns : isStringValue p.ParameterValue = false) :
    resolveParam tp pmap azones shuffled region choose pick p = .error .typeError := by
  cases hv : p.ParameterValue with
  | str s =>
    rw [hv] at hns
    simp [isStringValue] at hns
  | nullv =>
    simp [resolveParam, hv, paramUseTemplateDefault, paramIsOverridden, jsTrimVal, jsTruthy]
  | undef =>
    simp [resolveParam, hv, paramUseTemplateDefault, paramIsOverridden, jsTrimVal, jsTruthy]
  | num n =>
    by_cases hn : n = 0
    · simp [resolveParam, hv, paramUseTemplateDefault, paramIsOverridden, jsTrimVal,
        jsTruthy, hn, Except.map]
    · simp [resolveParam, hv, paramUseTemplateDefault, paramIsOverridden, jsTrimVal,
        jsTruthy, hn, Except.map]

theorem parseParamsAux_nonstr_error (tp : List (String × Option String))
    (pmap : List (String × String)) (azones : List String) (shuffled : Nat → List String)
    (region : String) (choose pick : Nat → Nat → Nat) :
    ∀ (i : Nat) (params : List Param),
      (∃ p ∈ params, isStringValue p.ParameterValue = false) →
      ∃ e, parseParamsAux tp pmap azones shuffled region choose pick i params = .error e
  | _, [], h => by
    rcases h with ⟨p, hp, _⟩
    cases hp
  | i, p0 :: rest, h => by
    rcases h with ⟨p, hp, hns⟩
    rcases List.mem_cons.mp hp with rfl | hmem
    · exact ⟨.typeError, by
        simp only [parseParamsAux,
          resolveParam_nonstr_error tp pmap azones (shuffled i) region (choose i) (pick i)
            p hns]⟩
    · cases hr : resolveParam tp pmap azones (shuffled i) region (choose i) (pick i) p0 with
      | error e => exact ⟨e, by simp only [parseParamsAux, hr]⟩
      | ok q =>
        obtain ⟨e, he⟩ := parseParamsAux_nonstr_error tp pmap azones shuffled region
          choose pick (i + 1) rest ⟨p, hmem, hns⟩
        exact ⟨e, by simp only [parseParamsAux, hr, he]⟩

/-- Claim C10: if any entry of the document carries a ParameterValue
that is not a present string (undefined, null, or a non-string
scalar), resolution of the entire batch throws — the trim call in the
dispatch fails — instead of passing the entry through as a literal. -/
theorem c10_nonstring_value_throws (params : List Param)
    (tp : List (String × Option String)) (pmap : List (String × String))
    (azones : List String) (shuffled : Nat → List String) (region : String)
    (choose pick : Nat → Nat → Nat)
    (h : ∃ p ∈ params, isStringValue p.ParameterValue = false) :
    ∃ e, parseParams params tp pmap azones shuffled region choose pick = .error e :=
  parseParamsAux_nonstr_error tp pmap azones shuffled region choose pick 0 params h

theorem c10_witness :
    (∃ p ∈ [Param.mk "A" .undef], isStringValue p.ParameterValue = false) ∧
    ∃ e, parseParams [Param.mk "A" .undef] [] [] [] (fun _ => []) "r"
      (fun _ _ => 0) (fun _ _ => 0) = .error e :=
  ⟨by decide,
    c10_nonstring_value_throws [Param.mk "A" .undef] [] [] [] (fun _ => []) "r"
      (fun _ _ => 0) (fun _ _ => 0) (by decide)⟩

theorem objGet_jsSet_same (m : List (String × α)) (k : String) (v : α) :
    objGet (jsSet m k v) k = some v := by
  induction m with
  | nil => simp [jsSet, objGet]
  | cons hd t ih =>
    obtain ⟨k1, v1⟩ := hd
    by_cases hk : k1 = k
    · simp [jsSet, objGet, hk]
    · simp only [jsSet, objGet] at ih ⊢
      simp [List.find?, hk, ih]

theorem objGet_jsSet_other (m : List (String × α)) (k k1 : String) (v : α) (h : k ≠ k1) :
    objGet (jsSet m k v) k1 = objGet m k1 := by
  have hb : (k == k1) = false := beq_eq_false_iff_ne.mpr h
  have hbs : (k1 == k) = false := beq_eq_false_iff_ne.mpr (Ne.symm h)
  induction m with
  | nil => simp [jsSet, objGet, List.find?, hb]
  | cons hd t ih =>
    obtain ⟨k2, v2⟩ := hd
    by_cases hk : k2 = k
    · subst hk
      simp [jsSet, objGet, List.find?, hb]
    · by_cases hk1 : k2 = k1
      · subst hk1
        simp [jsSet, objGet, List.find?, hk, hbs]
      · have hb1 : (k2 == k1) = false := beq_eq_false_iff_ne.mpr hk1
        simp only [jsSet, objGet, List.find?, hb1, beq_eq_false_iff_ne.mpr hk,
          Bool.false_eq_true, if_false]
        simpa [objGet] using ih

/-- Claim C4 counterexample: with the user override specification
naming the key S3BucketName with value userbucket, and the synthetic
bucket cibucket, the constructed table maps S3BucketName to the
synthetic cibucket — the synthetic entry, set after the override map
is built, overwrites the explicit user-supplied value, not the other
way round. -/
theorem c4_counterexample :
    nvpExtract "Name=S3BucketName,Value=userbucket" = some ("S3BucketName", "userbucket") ∧
    objGet (createParamVariableMap (some "Name=S3BucketName,Value=userbucket")
      "cibucket" "pfx") "S3BucketName" = some "cibucket" ∧
    some ("cibucket" : String) ≠ some ("userbucket" : String) :=
  ⟨rfl, rfl, by decide⟩

/-- Claim C4 amended: in the constructed override table the four
synthetic bucket and key-prefix entries always win: whatever the
override specification says, the final table maps S3BucketName and
QSS3BucketName to the synthetic bucket and S3KeyPrefix and
QSS3KeyPrefix to the synthetic prefix with a trailing slash, because
the source sets the synthetic entries into the map after building it
from the user specification. -/
theorem c4_amended_synthetic_wins (override : Option String) (bucket keyPfx : String) :
    objGet (createParamVariableMap override bucket keyPfx) "S3BucketName" = some bucket ∧
    objGet (createParamVariableMap override bucket keyPfx) "S3KeyPrefix" =
      some (keyPfx ++ "/") ∧
    objGet (createParamVariableMap override bucket keyPfx) "QSS3BucketName" = some bucket ∧
    objGet (createParamVariableMap override bucket keyPfx) "QSS3KeyPrefix" =
      some (keyPfx ++ "/") := by
  simp only [createParamVariableMap]
  refine ⟨?_, ?_, ?_, ?_⟩
  · rw [objGet_jsSet_other _ _ _ _ (by decide), objGet_jsSet_other _ _ _ _ (by decide),
      objGet_jsSet_other _ _ _ _ (by decide), objGet_jsSet_same]
  · rw [objGet_jsSet_other _ _ _ _ (by decide), objGet_jsSet_other _ _ _ _ (by decide),
      objGet_jsSet_same]
  · rw [objGet_jsSet_other _ _ _ _ (by decide), objGet_jsSet_same]
  · rw [objGet_jsSet_same]

/-- Claim C9 counterexample: an internal failure of the deploy
subcommand (the archive unpack rejecting) propagates out of the
command — deploy has no try/catch — so the completion message is not
printed; the process does not complete normally as the claim states. -/
theorem c9_counterexample :
    deployCmd (.error (.external "unzip failed")) (fun _ => .ok "s3://dest") =
      .error (.external "unzip failed") ∧
    mainRun (deployCmd (.error (.external "unzip failed")) (fun _ => .ok "s3://dest")) =
      none ∧
    (none : Option String) ≠ some "program ends." :=
  ⟨rfl, rfl, by decide⟩

/-- Claim C9 amended: only the create subcommand catches internal
failures at the top level: whatever its collaborators do, create
resolves, the completion message is printed, and a failing body is
logged; the deploy subcommand has no handler, so a failure of either
of its stages rejects through main and the completion message is not
printed. -/
theorem c9_amended_create_catches_deploy_propagates :
    (∀ (env : CreateEnv) (override : Option String) (bucket keyPfx : String)
        (shuffled : Nat → List String) (region : String) (choose pick : Nat → Nat → Nat),
      (createCmd env override bucket keyPfx shuffled region choose pick).1 = .ok () ∧
      mainRun (createCmd env override bucket keyPfx shuffled region choose pick).1 =
        some "program ends.") ∧
    (∀ (env : CreateEnv) (override : Option String) (bucket keyPfx : String)
        (shuffled : Nat → List String) (region : String) (choose pick : Nat → Nat → Nat)
        (e : JsError),
      createBody env override bucket keyPfx shuffled region choose pick = .error e →
      (createCmd env override bucket keyPfx shuffled region choose pick).2 = some e) ∧
    (∀ (e : JsError) (upload : String → Except JsError String),
      mainRun (deployCmd (.error e) upload) = none) ∧
    (∀ (dir : String) (e : JsError) (upload : String → Except JsError String),
      upload dir = .error e → mainRun (deployCmd (.ok dir) upload) = none) := by
  refine ⟨?_, ?_, ?_, ?_⟩
  · intro env override bucket keyPfx shuffled region choose pick
    cases hb : createBody env override bucket keyPfx shuffled region choose pick <;>
      simp [createCmd, hb, mainRun]
  · intro env override bucket keyPfx shuffled region choose pick e h
    simp [createCmd, h]
  · intro e upload
    rfl
  · intro dir e upload h
    simp [deployCmd, h, mainRun]

theorem c9_witness :
    ((createCmd ⟨.error (.external "fetch failed"), none, .ok (), .ok "out", []⟩ none "b" "p"
        (fun _ => []) "r" (fun _ _ => 0) (fun _ _ => 0)).1 = .ok () ∧
      mainRun (createCmd ⟨.error (.external "fetch failed"), none, .ok (), .ok "out", []⟩
        none "b" "p" (fun _ => []) "r" (fun _ _ => 0) (fun _ _ => 0)).1 =
        some "program ends.") ∧
    (createBody ⟨.error (.external "fetch failed"), none, .ok (), .ok "out", []⟩ none "b" "p"
        (fun _ => []) "r" (fun _ _ => 0) (fun _ _ => 0) = .error (.external "fetch failed") ∧
      (createCmd ⟨.error (.external "fetch failed"), none, .ok (), .ok "out", []⟩ none "b" "p"
        (fun _ => []) "r" (fun _ _ => 0) (fun _ _ => 0)).2 =
        some (.external "fetch failed")) ∧
    ((fun _ : String => Except.error (α := String) (JsError.external "upload failed")) "dir" =
        .error (.external "upload failed") ∧
      mainRun (deployCmd (.ok "dir")
        (fun _ => .error (.external "upload failed"))) = none) :=
  ⟨c9_amended_create_catches_deploy_propagates.1
      ⟨.error (.external "fetch failed"), none, .ok (), .ok "out", []⟩ none "b" "p"
      (fun _ => []) "r" (fun _ _ => 0) (fun _ _ => 0),
    ⟨rfl,
      c9_amended_create_catches_deploy_propagates.2.1
        ⟨.error (.external "fetch failed"), none, .ok (), .ok "out", []⟩ none "b" "p"
        (fun _ => []) "r" (fun _ _ => 0) (fun _ _ => 0) (.external "fetch failed") rfl⟩,
    rfl,
    c9_amended_create_catches_deploy_propagates.2.2.2 "dir" (.external "upload failed")
      (fun _ => .error (.external "upload failed")) rfl⟩
